import Mathlib

/-!
Verification development for the LIME low-light image-enhancement tool
(a Next.js upload/API layer `pages/api/enhance.js` in front of a Python
enhancement pipeline `backend/hybrid.py`).

Part 1 embeds the enhancement pipeline. The pipeline script itself is not
part of the supplied sources (only its caller is), so the stage functions
are modelled from the specification (sections 4.1 to 4.6), over exact
rationals: pixel samples are normalized values in [0, 1] represented as
rationals, and the real power function `x ^ gamma` of the tone mapper,
which has no exact rational representation, is carried as an explicit
function argument `pw` about which theorems assume only what the spec
guarantees (monotonicity, positivity at the illumination floor).

Part 2 embeds the API handler of `src/pages/api/enhance.js` as a pure
function of an environment describing the upload outcome, the filesystem
and the behaviour of the Python process, returning the HTTP response
together with its observable effects (the argv lists passed to the Python
process, and the files left in the uploads directory afterwards).
-/

namespace LIME

/-- Clamp a rational to the closed interval [lo, hi]. -/
def clamp (lo hi x : ℚ) : ℚ := min hi (max lo x)

/-- Clamp to the valid pixel range [0, 1]. -/
def clamp01 (x : ℚ) : ℚ := clamp 0 1 x

/-- A single-channel 2D grid of samples (spec section 3, Pixel Buffer /
Illumination Map): width, height, and a sample at each coordinate. -/
structure Grid where
  w : ℕ
  h : ℕ
  px : ℕ → ℕ → ℚ

/-- A 3-channel pixel buffer (spec section 3): width, height, and for each
channel index a sample at each coordinate. -/
structure RGB where
  w : ℕ
  h : ℕ
  chan : Fin 3 → ℕ → ℕ → ℚ

/-- The Filter Parameters record (spec section 3): the recognized numeric
options with their documented defaults (alpha 0.15, beta 0.08, gamma 0.8). -/
structure FilterParams where
  alpha : ℚ
  beta : ℚ
  gamma : ℚ
  guidedRadius : ℤ
  guidedEpsilon : ℚ
  sharpenAmount : ℚ
  sharpenRadius : ℤ

/-- Modelled from the spec (section 4.1, Color-Space Projector): per-pixel
maximum across the three channels, the default strategy. -/
def colorProject (img : RGB) : Grid :=
  ⟨img.w, img.h, fun x y => max (img.chan 0 x y) (max (img.chan 1 x y) (img.chan 2 x y))⟩

/-- Modelled from the spec (section 4.2, Illumination Estimator): the raw
proxy is the initial estimate, `alpha` scales an adjustment that pulls dark
regions up more than lit ones, and the result is clamped into [beta, 1]. -/
def illumEstimate (alpha beta : ℚ) (proxy : Grid) : Grid :=
  ⟨proxy.w, proxy.h, fun x y =>
    let v := proxy.px x y
    clamp beta 1 (v + alpha * (1 - v))⟩

/-- Mean of a grid over the window of radius `rad` centered at (x, y),
clipped to the valid region (spec section 4.3: windows extending past the
boundary are clipped, not zero-padded). -/
def boxMean (gr : Grid) (rad x y : ℕ) : ℚ :=
  let xlo := x - rad
  let xhi := min (x + rad) (gr.w - 1)
  let ylo := y - rad
  let yhi := min (y + rad) (gr.h - 1)
  let s := (Finset.Icc xlo xhi).sum fun i => (Finset.Icc ylo yhi).sum fun j => gr.px i j
  s / (((xhi + 1 - xlo) * (yhi + 1 - ylo) : ℕ) : ℚ)

/-- Modelled from the spec (section 4.3, Structure-Preserving Refiner):
guided filter with guidance image `I` and filtered input `p`; per-window
linear coefficients a = cov(I, p) / (var(I) + eps) and b = mean p - a mean I,
box-averaged before application (the standard efficient formulation). -/
def guidedFilter (rad : ℕ) (eps : ℚ) (I p : Grid) : Grid :=
  let mI := fun x y => boxMean I rad x y
  let mP := fun x y => boxMean p rad x y
  let mII := fun x y => boxMean ⟨I.w, I.h, fun u v => I.px u v * I.px u v⟩ rad x y
  let mIP := fun x y => boxMean ⟨I.w, I.h, fun u v => I.px u v * p.px u v⟩ rad x y
  let a := fun x y => (mIP x y - mI x y * mP x y) / (mII x y - mI x y * mI x y + eps)
  let b := fun x y => mP x y - a x y * mI x y
  ⟨I.w, I.h, fun x y =>
    boxMean ⟨I.w, I.h, a⟩ rad x y * I.px x y + boxMean ⟨I.w, I.h, b⟩ rad x y⟩

/-- Modelled from the spec (section 4.4, Adaptive Tone Mapper): for each
channel c, `output[c] = input[c] / (illumination ^ gamma)`, then clamp to
[0, 1]. The power `(illumination ^ gamma)` is carried as the function
argument `pw`. -/
def toneMap (pw : ℚ → ℚ) (illum : Grid) (img : RGB) : RGB :=
  ⟨img.w, img.h, fun c x y => clamp01 (img.chan c x y / pw (illum.px x y))⟩

/-- Modelled from the spec (section 4.5, Detail Restorer): unsharp masking —
box-blur the buffer, subtract to get the residual, add back
`amount * residual`, clamp to [0, 1]. -/
def detailRestore (amount : ℚ) (rad : ℕ) (img : RGB) : RGB :=
  ⟨img.w, img.h, fun c x y =>
    let v := img.chan c x y
    clamp01 (v + amount * (v - boxMean ⟨img.w, img.h, img.chan c⟩ rad x y))⟩

/-- The configuration bounds checked by the orchestrator
(spec section 4.6). -/
def validParams (p : FilterParams) : Prop :=
  p.beta < 1 ∧ 0 < p.alpha ∧ 0 < p.guidedEpsilon ∧ 0 ≤ p.sharpenRadius

instance (p : FilterParams) : Decidable (validParams p) := by
  unfold validParams
  infer_instance

/-- Modelled from the spec (section 4.6, Pipeline Orchestrator): validate
the configuration, then sequence projector, estimator, refiner, tone mapper
and detail restorer; on an invalid configuration fail fast with a
configuration error before touching any pixel. -/
def enhance (pw : ℚ → ℚ) (p : FilterParams) (img : RGB) : Except String RGB :=
  if validParams p then
    let proxy := colorProject img
    let coarse := illumEstimate p.alpha p.beta proxy
    let refined := guidedFilter p.guidedRadius.toNat p.guidedEpsilon proxy coarse
    let toned := toneMap pw refined img
    Except.ok (detailRestore p.sharpenAmount p.sharpenRadius.toNat toned)
  else
    Except.error "configuration error"

end LIME

namespace API

/-- Outcome of the multer upload middleware (enhance.js lines 10-35, 58-73):
the middleware errors (invalid file type, size limit), or it succeeds but no
file field was present, or a file is stored on disk with its mimetype,
original extension and content bytes. -/
inductive UploadOutcome
  | failed (msg : String)
  | noFile
  | stored (mimetype : String) (ext : String) (content : List ℕ)

/-- Outcome of running the Python process (enhance.js lines 104-120):
whether execFile resolved without error, and the content of the output file
if the script created one. -/
structure PyResult where
  exitOk : Bool
  output : Option (List ℕ)

/-- The environment a request runs against: HTTP method, the upload
middleware's outcome, whether backend/hybrid.py exists, and the Python
script's behaviour as a function of the input file's bytes (the spec calls
the pipeline deterministic and pure, so a function). -/
structure Env where
  method : String
  upload : UploadOutcome
  scriptExists : Bool
  run : List ℕ → PyResult

/-- Body of the HTTP response: a JSON error object or raw image bytes. -/
inductive Body
  | json (msg : String)
  | bytes (content : List ℕ)
deriving DecidableEq

/-- The HTTP response: status code, optional Content-Type and
Content-Disposition headers, and the body. -/
structure Response where
  status : ℕ
  contentType : Option String
  contentDisposition : Option String
  body : Body
deriving DecidableEq

/-- Observable effects of a request: the argv lists passed to the Python
interpreter via execFile, and the files left in uploads/ after the request
completes. -/
structure Effects where
  calls : List (List String)
  remaining : List String
deriving DecidableEq

/-- Stored input file path (enhance.js lines 13, 19-21): uploads/ directory,
multer filename = fieldname + unique suffix + original extension. The
suffix is the Date.now/Math.random part, a per-request nondeterministic
input. -/
def inputPath (suffix ext : String) : String :=
  "uploads/image-" ++ suffix ++ ext

/-- Output file path (enhance.js lines 80-83): same directory, basename
prefixed with "enhanced-". -/
def outputPath (suffix ext : String) : String :=
  "uploads/enhanced-image-" ++ suffix ++ ext

/-- Path of the Python script (enhance.js line 96). -/
def scriptPath : String := "backend/hybrid.py"

/-- The mimetypes the upload fileFilter accepts (enhance.js lines 27-34). -/
def fileFilterAccepts (mimetype : String) : Bool :=
  mimetype = "image/jpeg" ∨ mimetype = "image/jpg" ∨ mimetype = "image/png"

/-- The handler of src/pages/api/enhance.js as a pure function: reject
non-POST methods (405); a middleware error reaches the outer catch (500);
a missing file field is a 400; a missing Python script is a 500 with the
stored input file left on disk; otherwise execFile is invoked once with
[scriptPath, inputPath, outputPath]. If it resolves and the output file
exists, both files are unlinked and the output bytes are sent with
Content-Type image/jpeg; if it resolves but no output file was created, or
if it rejects, the catch block unlinks the input file only and answers 500
(an output file created by a failed run is not unlinked). -/
def runHandler (env : Env) (suffix : String) : Response × Effects :=
  if env.method ≠ "POST" then
    (⟨405, none, none, Body.json "Method not allowed"⟩, ⟨[], []⟩)
  else
    match env.upload with
    | UploadOutcome.failed _ =>
        (⟨500, none, none, Body.json "Failed to process image"⟩, ⟨[], []⟩)
    | UploadOutcome.noFile =>
        (⟨400, none, none, Body.json "No image file uploaded"⟩, ⟨[], []⟩)
    | UploadOutcome.stored _ ext content =>
        let ip := inputPath suffix ext
        let op := outputPath suffix ext
        if ¬ env.scriptExists then
          (⟨500, none, none, Body.json "Python script not found"⟩, ⟨[], [ip]⟩)
        else
          let res := env.run content
          let call := [scriptPath, ip, op]
          if res.exitOk then
            match res.output with
            | some outBytes =>
                (⟨200, some "image/jpeg", some "inline; filename=\"enhanced-image.jpg\"",
                    Body.bytes outBytes⟩,
                 ⟨[call], []⟩)
            | none =>
                (⟨500, none, none,
                    Body.json "Failed to enhance image. Please check if Python and required libraries are installed."⟩,
                 ⟨[call], []⟩)
          else
            (⟨500, none, none,
                Body.json "Failed to enhance image. Please check if Python and required libraries are installed."⟩,
             ⟨[call],
              match res.output with
              | some _ => [op]
              | none => []⟩)

end API

namespace LIME

theorem clamp01_nonneg (x : ℚ) : 0 ≤ clamp01 x := by
  unfold clamp01 clamp
  exact le_min (by norm_num) (le_max_left 0 x)

theorem clamp01_le_one (x : ℚ) : clamp01 x ≤ 1 := min_le_left 1 _

theorem clamp01_of_mem (x : ℚ) (h0 : 0 ≤ x) (h1 : x ≤ 1) : clamp01 x = x := by
  unfold clamp01 clamp
  rw [max_eq_right h0, min_eq_right h1]

/-- A concrete 2x2 all-half image used to instantiate theorems. -/
def cimg : RGB := ⟨2, 2, fun _ _ _ => 1/2⟩

/-- A concrete 2x2 constant proxy grid. -/
def cproxy : Grid := ⟨2, 2, fun _ _ => 1/4⟩

/-- A concrete 2x2 constant illumination grid. -/
def cillum : Grid := ⟨2, 2, fun _ _ => 3/4⟩

/-- A concrete invalid parameter record: beta = 2 violates beta < 1. -/
def badParams : FilterParams := ⟨15/100, 2, 8/10, 2, 1/25, 1, 1⟩

/-- Claim C1: for every invocation of the pipeline entry point with a
parameter violating one of the validated bounds (beta < 1, alpha > 0,
guidedEpsilon > 0, sharpenRadius >= 0), the orchestrator fails fast with a
configuration error; the result is a constant independent of the image, so
no pixel is processed. -/
theorem enhance_invalid_config_fails_fast (pw : ℚ → ℚ) (p : FilterParams)
    (img : RGB) (h : ¬ validParams p) :
    enhance pw p img = Except.error "configuration error" := by
  unfold enhance
  rw [if_neg h]

theorem enhance_invalid_config_fails_fast_witness :
    ¬ validParams badParams ∧
      enhance (fun t => t) badParams cimg = Except.error "configuration error" :=
  ⟨fun h => absurd h.1 (by norm_num [badParams]),
   enhance_invalid_config_fails_fast (fun t => t) badParams cimg
     (fun h => absurd h.1 (by norm_num [badParams]))⟩

/-- Claim C4: whenever beta ≤ 1 (ensured by the validated bound beta < 1),
every value of the Illumination Map produced by the Illumination Estimator
lies in [beta, 1]; a raw estimate below beta is clamped up to exactly beta
and a raw estimate above 1 is clamped down to exactly 1. -/
theorem illumination_map_within_beta_one (alpha beta : ℚ) (proxy : Grid)
    (hb : beta ≤ 1) (x y : ℕ) :
    (beta ≤ (illumEstimate alpha beta proxy).px x y ∧
       (illumEstimate alpha beta proxy).px x y ≤ 1) ∧
    (proxy.px x y + alpha * (1 - proxy.px x y) ≤ beta →
       (illumEstimate alpha beta proxy).px x y = beta) ∧
    (1 ≤ proxy.px x y + alpha * (1 - proxy.px x y) →
       (illumEstimate alpha beta proxy).px x y = 1) := by
  unfold illumEstimate clamp
  dsimp only
  refine ⟨⟨le_min hb (le_max_left _ _), min_le_left _ _⟩, ?_, ?_⟩
  · intro hlow
    rw [max_eq_left hlow, min_eq_right hb]
  · intro hhigh
    rw [max_eq_right (hb.trans hhigh), min_eq_left hhigh]

theorem illumination_map_within_beta_one_witness :
    ((1:ℚ)/2 ≤ 1) ∧
      (((1:ℚ)/2 ≤ (illumEstimate (1/10) (1/2) cproxy).px 0 0 ∧
          (illumEstimate (1/10) (1/2) cproxy).px 0 0 ≤ 1) ∧
       (cproxy.px 0 0 + (1:ℚ)/10 * (1 - cproxy.px 0 0) ≤ 1/2 →
          (illumEstimate (1/10) (1/2) cproxy).px 0 0 = 1/2) ∧
       (1 ≤ cproxy.px 0 0 + (1:ℚ)/10 * (1 - cproxy.px 0 0) →
          (illumEstimate (1/10) (1/2) cproxy).px 0 0 = 1)) :=
  ⟨by norm_num,
   illumination_map_within_beta_one (1/10) (1/2) cproxy (by norm_num) 0 0⟩

/-- Claim C5: every channel value of the buffer produced by the Adaptive
Tone Mapper and of the buffer produced by the Detail Restorer lies in
[0, 1] (both stages clamp); in this exact-rational embedding every value is
a well-defined bounded rational, the counterpart of the no-NaN/Inf
requirement. -/
theorem stage_outputs_within_unit_interval (pw : ℚ → ℚ) (illum : Grid)
    (img buf : RGB) (amount : ℚ) (rad : ℕ) (c : Fin 3) (x y : ℕ) :
    (0 ≤ (toneMap pw illum img).chan c x y ∧
       (toneMap pw illum img).chan c x y ≤ 1) ∧
    (0 ≤ (detailRestore amount rad buf).chan c x y ∧
       (detailRestore amount rad buf).chan c x y ≤ 1) :=
  ⟨⟨clamp01_nonneg _, clamp01_le_one _⟩, ⟨clamp01_nonneg _, clamp01_le_one _⟩⟩

/-- Claim C6: the Adaptive Tone Mapper computes, for each channel and
pixel, input divided by the illumination raised to gamma (the power carried
as pw), then clamps to [0, 1]; and with the illumination floored at beta,
the pre-clamp value never exceeds the input times the maximal gain
1 / beta^gamma, assuming only that the power is monotone above beta and
positive at beta. -/
theorem toneMap_division_then_clamp_gain_bounded (pw : ℚ → ℚ) (beta : ℚ)
    (illum : Grid) (img : RGB) (c : Fin 3) (x y : ℕ)
    (hmono : ∀ a b : ℚ, beta ≤ a → a ≤ b → pw a ≤ pw b)
    (hpos : 0 < pw beta)
    (hfloor : beta ≤ illum.px x y)
    (hin : 0 ≤ img.chan c x y) :
    (toneMap pw illum img).chan c x y
        = clamp01 (img.chan c x y / pw (illum.px x y)) ∧
    img.chan c x y / pw (illum.px x y) ≤ img.chan c x y * (1 / pw beta) := by
  constructor
  · rfl
  · have h1 : pw beta ≤ pw (illum.px x y) := hmono beta _ le_rfl hfloor
    have h2 : (1 : ℚ) / pw (illum.px x y) ≤ 1 / pw beta :=
      one_div_le_one_div_of_le hpos h1
    calc img.chan c x y / pw (illum.px x y)
        = img.chan c x y * (1 / pw (illum.px x y)) := div_eq_mul_one_div _ _
      _ ≤ img.chan c x y * (1 / pw beta) := mul_le_mul_of_nonneg_left h2 hin

theorem toneMap_division_then_clamp_gain_bounded_witness :
    (∀ a b : ℚ, (1:ℚ)/2 ≤ a → a ≤ b → a ≤ b) ∧
    ((0:ℚ) < 1/2) ∧
    ((1:ℚ)/2 ≤ cillum.px 0 0) ∧
    ((0:ℚ) ≤ cimg.chan 0 0 0) ∧
    ((toneMap (fun t => t) cillum cimg).chan 0 0 0
        = clamp01 (cimg.chan 0 0 0 / cillum.px 0 0) ∧
      cimg.chan 0 0 0 / cillum.px 0 0 ≤ cimg.chan 0 0 0 * (1 / ((1:ℚ)/2))) :=
  ⟨fun _ _ _ h => h, by norm_num, by norm_num [cillum], by norm_num [cimg],
   toneMap_division_then_clamp_gain_bounded (fun t => t) (1/2) cillum cimg 0 0 0
     (fun _ _ _ h => h) (by norm_num) (by norm_num [cillum]) (by norm_num [cimg])⟩

/-- Claim C7: with sharpenAmount equal to 0, the Detail Restorer is the
identity on every well-formed input buffer (channel values in [0, 1]):
the output channel value equals the input channel value exactly. -/
theorem detailRestore_zero_amount_is_identity (rad : ℕ) (img : RGB)
    (h : ∀ (c : Fin 3) (x y : ℕ), 0 ≤ img.chan c x y ∧ img.chan c x y ≤ 1)
    (c : Fin 3) (x y : ℕ) :
    (detailRestore 0 rad img).chan c x y = img.chan c x y := by
  have hb := h c x y
  unfold detailRestore
  dsimp only
  rw [zero_mul, add_zero]
  exact clamp01_of_mem _ hb.1 hb.2

theorem detailRestore_zero_amount_is_identity_witness :
    (∀ (c : Fin 3) (x y : ℕ), 0 ≤ cimg.chan c x y ∧ cimg.chan c x y ≤ 1) ∧
      (detailRestore 0 1 cimg).chan 0 0 0 = cimg.chan 0 0 0 :=
  ⟨fun _ _ _ => by norm_num [cimg],
   detailRestore_zero_amount_is_identity 1 cimg (fun _ _ _ => by norm_num [cimg]) 0 0 0⟩

end LIME

namespace API

/-- A concrete request environment: POST, a stored PNG upload, the script
present, and a Python run that succeeds and writes an output file. -/
def cenv : Env :=
  ⟨"POST", UploadOutcome.stored "image/png" ".png" [1, 2, 3], true,
   fun _ => ⟨true, some [7, 7]⟩⟩

/-- A concrete request environment in which backend/hybrid.py is missing. -/
def cenvNoScript : Env :=
  ⟨"POST", UploadOutcome.stored "image/png" ".png" [1, 2, 3], false,
   fun _ => ⟨true, none⟩⟩

/-- Claim C2 counterexample: on a concrete successful request, the only
execFile invocation carries exactly the script path and the two file paths;
no alpha, beta, gamma, radius, epsilon or amount value appears anywhere in
the argument vector, so the caller-supplied parameter record is not passed
into the enhancement invocation (the handler receives no such record at
all: the frontend form carries only the image field). -/
theorem handler_passes_no_params_counterexample :
    (runHandler cenv "s").2.calls =
      [["backend/hybrid.py", "uploads/image-s.png", "uploads/enhanced-image-s.png"]] := by
  rfl

/-- Claim C2 amended: every execFile invocation the handler performs
consists of exactly the Python script path, the stored input path and the
derived output path — no parameter record is passed; the backend falls back
to its documented defaults. -/
theorem handler_invocation_args_paths_only (env : Env) (suffix : String)
    (c : List String) (hc : c ∈ (runHandler env suffix).2.calls) :
    ∃ ext, c = [scriptPath, inputPath suffix ext, outputPath suffix ext] := by
  obtain ⟨m, u, se, run⟩ := env
  unfold runHandler at hc
  dsimp only at hc
  split at hc
  · exact absurd hc (List.not_mem_nil c)
  · cases u with
    | failed msg => exact absurd hc (List.not_mem_nil c)
    | noFile => exact absurd hc (List.not_mem_nil c)
    | stored mt ext content =>
        refine ⟨ext, ?_⟩
        dsimp only at hc
        split at hc
        · exact absurd hc (List.not_mem_nil c)
        · split at hc
          · split at hc
            · exact List.mem_singleton.mp hc
            · exact List.mem_singleton.mp hc
          · exact List.mem_singleton.mp hc

theorem handler_invocation_args_paths_only_witness :
    (["backend/hybrid.py", "uploads/image-s.png", "uploads/enhanced-image-s.png"]
        ∈ (runHandler cenv "s").2.calls) ∧
    (∃ ext, ["backend/hybrid.py", "uploads/image-s.png", "uploads/enhanced-image-s.png"]
        = [scriptPath, inputPath "s" ext, outputPath "s" ext]) :=
  ⟨by decide,
   handler_invocation_args_paths_only cenv "s" _ (by decide)⟩

/-- Claim C3: on every request the handler invokes the enhancement process
at most once (no internal retry), and the single response it produces is
either the success response or one JSON-bodied terminal error. -/
theorem handler_invokes_enhancement_at_most_once (env : Env) (suffix : String) :
    (runHandler env suffix).2.calls.length ≤ 1 ∧
    ((runHandler env suffix).1.status = 200 ∨
      ∃ msg, (runHandler env suffix).1.body = Body.json msg) := by
  obtain ⟨m, u, se, run⟩ := env
  unfold runHandler
  dsimp only
  split
  · exact ⟨Nat.zero_le 1, Or.inr ⟨_, rfl⟩⟩
  · cases u with
    | failed msg => exact ⟨Nat.zero_le 1, Or.inr ⟨_, rfl⟩⟩
    | noFile => exact ⟨Nat.zero_le 1, Or.inr ⟨_, rfl⟩⟩
    | stored mt ext content =>
        dsimp only
        split
        · exact ⟨Nat.zero_le 1, Or.inr ⟨_, rfl⟩⟩
        · split
          · split
            · exact ⟨le_refl 1, Or.inl rfl⟩
            · exact ⟨le_refl 1, Or.inr ⟨_, rfl⟩⟩
          · exact ⟨le_refl 1, Or.inr ⟨_, rfl⟩⟩

/-- Claim C8: the response (status, headers and body — in particular the
output image bytes) is a function of the upload outcome and the Python
run's behaviour on the uploaded bytes alone; the per-request
Date.now/Math.random filename suffix, the only nondeterministic input,
does not influence it, so two runs on identical input bytes and identical
parameters produce identical responses. -/
theorem handler_response_deterministic (env : Env) (s1 s2 : String) :
    (runHandler env s1).1 = (runHandler env s2).1 := by
  obtain ⟨m, u, se, run⟩ := env
  unfold runHandler
  dsimp only
  split
  · rfl
  · cases u with
    | failed msg => rfl
    | noFile => rfl
    | stored mt ext content =>
        dsimp only
        split
        · rfl
        · split
          · split <;> rfl
          · rfl

/-- Claim C9 counterexample: a concrete request in which the Python script
is missing completes with an error, yet the stored input file remains in
uploads/ afterwards — an intermediate artifact of the request survives the
request, refuting the claim that no artifact remains on every completion. -/
theorem error_path_leaves_artifact_counterexample :
    (runHandler cenvNoScript "s").2.remaining = ["uploads/image-s.png"] ∧
      (runHandler cenvNoScript "s").2.remaining ≠ [] := by
  decide

/-- Claim C9 amended: artifact lifetime is request-scoped on the success
path — whenever the handler answers 200, both the stored input file and
the produced output file have been removed and nothing of the request
remains in uploads/. -/
theorem success_leaves_no_artifacts (env : Env) (suffix : String)
    (hs : (runHandler env suffix).1.status = 200) :
    (runHandler env suffix).2.remaining = [] := by
  obtain ⟨m, u, se, run⟩ := env
  unfold runHandler at hs ⊢
  by_cases hm : m ≠ "POST"
  · rw [if_pos hm] at hs
    exact absurd hs (by norm_num)
  · rw [if_neg hm] at hs ⊢
    cases u with
    | failed msg => exact absurd hs (by norm_num)
    | noFile => exact absurd hs (by norm_num)
    | stored mt ext content =>
        dsimp only at hs ⊢
        by_cases hse : ¬ se = true
        · rw [if_pos hse] at hs
          exact absurd hs (by norm_num)
        · rw [if_neg hse] at hs ⊢
          by_cases hex : (run content).exitOk = true
          · rw [if_pos hex] at hs ⊢
            rcases ho : (run content).output with _ | outBytes
            · rfl
            · rfl
          · rw [if_neg hex] at hs
            exact absurd hs (by norm_num)

theorem success_leaves_no_artifacts_witness :
    (runHandler cenv "s").1.status = 200 ∧ (runHandler cenv "s").2.remaining = [] :=
  ⟨by decide, success_leaves_no_artifacts cenv "s" (by decide)⟩

/-- Claim C10: for every request the handler answers successfully, the
response declares Content-Type image/jpeg and filename enhanced-image.jpg,
whatever accepted mimetype (image/jpeg, image/jpg or image/png) the
uploaded file had. -/
theorem success_response_is_jpeg_named_enhanced (env : Env) (suffix : String)
    (mt ext : String) (content : List ℕ)
    (hu : env.upload = UploadOutcome.stored mt ext content)
    (_hmt : fileFilterAccepts mt = true)
    (hs : (runHandler env suffix).1.status = 200) :
    (runHandler env suffix).1.contentType = some "image/jpeg" ∧
    (runHandler env suffix).1.contentDisposition
        = some "inline; filename=\"enhanced-image.jpg\"" := by
  obtain ⟨m, u, se, run⟩ := env
  dsimp only at hu
  subst hu
  unfold runHandler at hs ⊢
  by_cases hm : m ≠ "POST"
  · rw [if_pos hm] at hs
    exact absurd hs (by norm_num)
  · rw [if_neg hm] at hs ⊢
    dsimp only at hs ⊢
    by_cases hse : ¬ se = true
    · rw [if_pos hse] at hs
      exact absurd hs (by norm_num)
    · rw [if_neg hse] at hs ⊢
      by_cases hex : (run content).exitOk = true
      · rw [if_pos hex] at hs ⊢
        rcases ho : (run content).output with _ | outBytes
        · rw [ho] at hs
          dsimp only at hs
          exact absurd hs (by norm_num)
        · exact ⟨rfl, rfl⟩
      · rw [if_neg hex] at hs
        exact absurd hs (by norm_num)

theorem success_response_is_jpeg_named_enhanced_witness :
    cenv.upload = UploadOutcome.stored "image/png" ".png" [1, 2, 3] ∧
    fileFilterAccepts "image/png" = true ∧
    (runHandler cenv "s").1.status = 200 ∧
    ((runHandler cenv "s").1.contentType = some "image/jpeg" ∧
      (runHandler cenv "s").1.contentDisposition
          = some "inline; filename=\"enhanced-image.jpg\"") :=
  ⟨rfl, by decide, by decide,
   success_response_is_jpeg_named_enhanced cenv "s" "image/png" ".png" [1, 2, 3]
     rfl (by decide) (by decide)⟩

end API
